import Mathlib

/-!
Verification of the DubAI Coqui TTS bridge (real bridge
`src/apps/backend/src/utils/coqui_tts_bridge.py` and mock bridge
`src/src/utils/coqui_tts_bridge_mock.py`) against its natural-language
specification.

The bridges are shallowly embedded: each Python method becomes a Lean
function from an explicit `CoquiState` / `MockState` to a result record
(a JSON-like key/value list, mirroring the Python dicts) and a new state.
External collaborators (torch, the TTS engine constructor, the filesystem,
the model catalog) are parameters gathered in an `Engine` record, so that
theorems quantify over every possible behaviour of the collaborators.
Resource-relevant actions (engine acquisition, release, temp-file creation
and deletion) are recorded in an explicit event trace.
-/

/-- JSON-like values, mirroring the Python dict/list/str/int/bool/None/float
values that appear in the bridges' result records. Floats only occur as the
mock's `processing_time`; they are represented by `rat`. -/
inductive JVal where
  | str : String → JVal
  | nat : Nat → JVal
  | bool : Bool → JVal
  | rat : Rat → JVal
  | null : JVal
  | arr : List JVal → JVal
  | obj : List (String × JVal) → JVal

/-- `os.path.basename`: the part of the path after the last slash. -/
def basename (p : String) : String :=
  ((p.splitOn "/").getLast?).getD ""

/-- Bool-valued list prefix test (used to embed Python's `in` substring test). -/
def isPrefixOfB : List Char → List Char → Bool
  | [], _ => true
  | _ :: _, [] => false
  | a :: as, b :: bs => a == b && isPrefixOfB as bs

/-- Bool-valued substring occurrence on char lists. -/
def containsB (pat : List Char) : List Char → Bool
  | [] => isPrefixOfB pat []
  | c :: rest => isPrefixOfB pat (c :: rest) || containsB pat rest

/-- Python's `pat in s` substring test on strings. -/
def strContains (s pat : String) : Bool :=
  containsB pat.data s.data

/-- Python's `s.startswith(p)`. -/
def strStarts (s p : String) : Bool := isPrefixOfB p.data s.data

/-- Python's `s.lower()` (the model identifiers are ASCII). -/
def strLower (s : String) : String := String.mk (s.data.map Char.toLower)

/-- Python truthiness of an `Optional[str]`: `None` and the empty string are
both falsy. -/
def truthy : Option String → Bool
  | none => false
  | some s => !(s == "")

/-! ### Base64 (Python `base64.b64encode`, an external stdlib collaborator,
modelled concretely so that decoded byte counts can be stated). -/

/-- The base64 alphabet. -/
def b64Alphabet : List Char :=
  "ABCDEFGHIJKLMNOPQRSTUVWXYZabcdefghijklmnopqrstuvwxyz0123456789+/".data

/-- Sextet value to base64 character. -/
def b64Char (n : Nat) : Char := b64Alphabet.getD n '='

/-- Base64 character back to its sextet value (garbage for non-alphabet chars). -/
def b64Val (c : Char) : Nat := b64Alphabet.indexOf c

/-- Encode a byte list (values < 256) into base64 characters, with `=` padding. -/
def b64EncodeBytes : List Nat → List Char
  | [] => []
  | [b1] =>
      [b64Char (b1 / 4), b64Char (b1 % 4 * 16), '=', '=']
  | [b1, b2] =>
      [b64Char (b1 / 4), b64Char (b1 % 4 * 16 + b2 / 16), b64Char (b2 % 16 * 4), '=']
  | b1 :: b2 :: b3 :: rest =>
      b64Char (b1 / 4) :: b64Char (b1 % 4 * 16 + b2 / 16) ::
      b64Char (b2 % 16 * 4 + b3 / 64) :: b64Char (b3 % 64) :: b64EncodeBytes rest

/-- Decode base64 characters back to bytes, honouring `=` padding. -/
def b64DecodeChars : List Char → List Nat
  | c1 :: c2 :: c3 :: c4 :: rest =>
      if c3 == '=' then
        [b64Val c1 * 4 + b64Val c2 / 16]
      else if c4 == '=' then
        [b64Val c1 * 4 + b64Val c2 / 16, b64Val c2 % 16 * 16 + b64Val c3 / 4]
      else
        (b64Val c1 * 4 + b64Val c2 / 16) :: (b64Val c2 % 16 * 16 + b64Val c3 / 4) ::
        (b64Val c3 % 4 * 64 + b64Val c4) :: b64DecodeChars rest
  | _ => []

/-- `base64.b64encode(...).decode('utf-8')`. -/
def base64Encode (bs : List Nat) : String := String.mk (b64EncodeBytes bs)

/-- Base64 decoding of a string into bytes. -/
def base64Decode (s : String) : List Nat := b64DecodeChars s.data

/-! ### Real bridge: `CoquiTTSBridge` in coqui_tts_bridge.py -/

/-- The handle returned by the external `TTS(...)` constructor, carrying the
attributes the bridge reads from it (`speakers`, `language`). -/
structure TTSHandle where
  speakers : List String
  language : String

/-- Voice-selection mode chosen inside `synthesize_speech` (the three-way
branch: clone from a speaker wav / first named speaker / single speaker). -/
inductive SynthMode where
  | clone (speaker_wav : String)
  | namedSpeaker (name : String)
  | single

/-- Resource events emitted by the bridge: engine acquisition (`TTS(...)`),
explicit release (`del self.tts_model` + cache flush), temp-file lifecycle,
and the engine synthesis call (`tts_to_file`). -/
inductive Event where
  | acquire (path : String)
  | release
  | createTemp
  | synthCall (mode : SynthMode)
  | deleteTemp

/-- External collaborators of the real bridge: torch CUDA probe, the `TTS`
constructor (may fail with a message), the filesystem existence probe, the
`tts_to_file` + file read pipeline (may fail; on success returns the audio
bytes), `torch.cuda.empty_cache` (may fail), and the `ModelManager` catalog
query (may fail). `tracebackText` stands for `traceback.format_exc()`. -/
structure Engine where
  cudaAvailable : Bool
  acquire : String → Option String → String → Except String TTSHandle
  fileExists : String → Bool
  synth : SynthMode → String → Except String (List Nat)
  emptyCacheOk : Bool
  cudaErrorText : String
  catalog : Except String (List String)
  tracebackText : String

/-- The mutable fields of `CoquiTTSBridge`: `self.tts_model`,
`self.current_model_path`, `self.model_info`. -/
structure CoquiState where
  tts_model : Option TTSHandle
  current_model_path : Option String
  model_info : List (String × JVal)

/-- The state at `__init__`: nothing loaded, empty info dict. -/
def initState : CoquiState :=
  { tts_model := none, current_model_path := none, model_info := [] }

/-- Outcome of one bridge operation: the returned result record (the Python
dict, in key order), the state after the call, and the resource events. -/
structure OpOut where
  record : List (String × JVal)
  state : CoquiState
  events : List Event

/-- The `model_info` dict built by `load_model` on a fresh load. `loaded_at`
is `str(torch.utils.data.get_worker_info() or "unknown")`, which is
`"unknown"` in the bridge's single main process. -/
def mkModelInfo (model_path device : String) (h : TTSHandle) : List (String × JVal) :=
  [("name", .str (basename model_path)),
   ("path", .str model_path),
   ("device", .str device),
   ("language", .str h.language),
   ("loaded_at", .str "unknown"),
   ("speakers", .arr (h.speakers.map .str)),
   ("use_gpu", .bool (device == "cuda"))]

/-- `CoquiTTSBridge.load_model`. The `speaker_wav` parameter is accepted and
ignored by the source, and `TTS(...).to(device)` failures are both covered by
`eng.acquire` returning an error. -/
def load_model (eng : Engine) (st : CoquiState) (model_path : String)
    (config_path : Option String) (use_gpu : Bool) : OpOut :=
  let device := if use_gpu && eng.cudaAvailable then "cuda" else "cpu"
  if st.tts_model.isSome && (st.current_model_path == some model_path) then
    { record := [("success", .bool true),
                 ("message", .str "Model already loaded"),
                 ("model_info", .obj st.model_info)],
      state := st, events := [] }
  else if strStarts model_path "tts_models/" then
    -- Pre-trained model from the Coqui model zoo
    match eng.acquire model_path none device with
    | .ok h =>
        let info := mkModelInfo model_path device h
        { record := [("success", .bool true),
                     ("message", .str ("Model loaded successfully on " ++ device)),
                     ("model_info", .obj info)],
          state := { tts_model := some h, current_model_path := some model_path,
                     model_info := info },
          events := [.acquire model_path] }
    | .error e =>
        { record := [("success", .bool false),
                     ("error", .str ("Failed to load model: " ++ e)),
                     ("traceback", .str eng.tracebackText)],
          state := st, events := [.acquire model_path] }
  else if !eng.fileExists model_path then
    -- FileNotFoundError raised before any engine call
    { record := [("success", .bool false),
                 ("error", .str ("Failed to load model: Model file not found: " ++ model_path)),
                 ("traceback", .str eng.tracebackText)],
      state := st, events := [] }
  -- `if config_path and not os.path.exists(config_path)`: Python truthiness,
  -- so an empty-string config_path skips the existence check
  else if (match config_path with
           | some c => !(c == "") && !eng.fileExists c
           | none => false) then
    { record := [("success", .bool false),
                 ("error", .str ("Failed to load model: Config file not found: "
                    ++ (config_path.getD ""))),
                 ("traceback", .str eng.tracebackText)],
      state := st, events := [] }
  else
    match eng.acquire model_path config_path device with
    | .ok h =>
        let info := mkModelInfo model_path device h
        { record := [("success", .bool true),
                     ("message", .str ("Model loaded successfully on " ++ device)),
                     ("model_info", .obj info)],
          state := { tts_model := some h, current_model_path := some model_path,
                     model_info := info },
          events := [.acquire model_path] }
    | .error e =>
        { record := [("success", .bool false),
                     ("error", .str ("Failed to load model: " ++ e)),
                     ("traceback", .str eng.tracebackText)],
          state := st, events := [.acquire model_path] }

/-- JVal for an optional string (Python `None` becomes JSON null). -/
def optJ : Option String → JVal
  | some s => .str s
  | none => .null

/-- `CoquiTTSBridge.synthesize_speech`. A temp `.wav` file is created with
`delete=False`; the `try/finally` deletes it on every path, success or
failure, which is reflected in the event trace. The `speed` parameter is
forwarded to the engine untouched and does not affect control flow, so it is
not modelled. Failures of `tts_to_file` or of reading the staged file back
are both covered by `eng.synth` returning an error. -/
def synthesize_speech (eng : Engine) (st : CoquiState) (text : String)
    (speaker_wav : Option String) (language : String) : OpOut :=
  match st.tts_model with
  | none =>
      { record := [("success", .bool false),
                   ("error", .str "No model loaded. Please load a model first.")],
        state := st, events := [] }
  | some h =>
      -- `if speaker_wav and os.path.exists(speaker_wav)`
      let mode :=
        if (match speaker_wav with
            | some w => !(w == "") && eng.fileExists w
            | none => false) then
          SynthMode.clone (speaker_wav.getD "")
        else
          match h.speakers with
          | s :: _ => SynthMode.namedSpeaker s
          | [] => SynthMode.single
      match eng.synth mode text with
      | .ok audio_data =>
          { record := [("success", .bool true),
                       ("audio_data", .str (base64Encode audio_data)),
                       ("audio_length", .nat audio_data.length),
                       ("text_length", .nat text.length),
                       ("language", .str language),
                       ("speaker_wav", optJ speaker_wav)],
            state := st,
            events := [.createTemp, .synthCall mode, .deleteTemp] }
      | .error e =>
          { record := [("success", .bool false),
                       ("error", .str ("Failed to synthesize speech: " ++ e)),
                       ("traceback", .str eng.tracebackText)],
            state := st,
            events := [.createTemp, .synthCall mode, .deleteTemp] }

/-- `CoquiTTSBridge.get_model_info`. -/
def get_model_info (st : CoquiState) : OpOut :=
  match st.tts_model with
  | none =>
      { record := [("success", .bool false), ("error", .str "No model loaded")],
        state := st, events := [] }
  | some _ =>
      { record := [("success", .bool true), ("model_info", .obj st.model_info)],
        state := st, events := [] }

/-- `CoquiTTSBridge.unload_model`. The three assignments clear the state
before `torch.cuda.empty_cache()` runs, so even when the cache flush raises
(the `except` path), the state is already fully cleared. -/
def unload_model (eng : Engine) (st : CoquiState) : OpOut :=
  match st.tts_model with
  | some _ =>
      if eng.cudaAvailable && !eng.emptyCacheOk then
        { record := [("success", .bool false),
                     ("error", .str ("Failed to unload model: " ++ eng.cudaErrorText))],
          state := initState, events := [.release] }
      else
        { record := [("success", .bool true),
                     ("message", .str "Model unloaded successfully")],
          state := initState, events := [.release] }
  | none =>
      { record := [("success", .bool true),
                   ("message", .str "No model was loaded")],
        state := st, events := [] }

/-- The Bangla filter in `list_available_models`: keep catalog entries whose
lower-cased identifier contains `"bn"`, `"bangla"` or `"bengali"`. -/
def isBangla (m : String) : Bool :=
  strContains (strLower m) "bn" || strContains (strLower m) "bangla"
    || strContains (strLower m) "bengali"

/-- `CoquiTTSBridge.list_available_models`: queries the external catalog,
caps `all_models` at the first 20 entries, and filters `bangla_models` from
the full catalog. Never touches the model state. -/
def list_available_models (eng : Engine) (st : CoquiState) : OpOut :=
  match eng.catalog with
  | .ok models =>
      { record := [("success", .bool true),
                   ("all_models", .arr ((models.take 20).map .str)),
                   ("bangla_models", .arr ((models.filter isBangla).map .str)),
                   ("total_models", .nat models.length)],
        state := st, events := [] }
  | .error e =>
      { record := [("success", .bool false),
                   ("error", .str ("Failed to list models: " ++ e))],
        state := st, events := [] }

/-! ### Dispatcher, response envelope and request loop (`main`) -/

/-- A successfully parsed request's method together with its expanded
`params` (the dispatcher passes `**params` as named arguments). `other`
stands for any method name outside the five recognized ones. -/
inductive Call where
  | load (model_path : String) (config_path : Option String) (use_gpu : Bool)
  | synth (text : String) (speaker_wav : Option String) (language : String)
  | info
  | unload
  | listModels
  | other (name : String)

/-- The `if method == ... elif ...` routing in `main`. -/
def dispatch (eng : Engine) (st : CoquiState) : Call → OpOut
  | .load p cfg gpu => load_model eng st p cfg gpu
  | .synth t sw lang => synthesize_speech eng st t sw lang
  | .info => get_model_info st
  | .unload => unload_model eng st
  | .listModels => list_available_models eng st
  | .other name =>
      { record := [("success", .bool false),
                   ("error", .str ("Unknown method: " ++ name))],
        state := st, events := [] }

/-- One outbound JSON line. -/
structure Response where
  id : String
  success : Bool
  result : Option (List (String × JVal))
  error : Option String

/-- `result.get("success", False)`. -/
def recSuccess (r : List (String × JVal)) : Bool :=
  match r.lookup "success" with
  | some (.bool b) => b
  | _ => false

/-- `result.get("error")` (as a string, which is what every record stores). -/
def recErrorMsg (r : List (String × JVal)) : Option String :=
  match r.lookup "error" with
  | some (.str s) => some s
  | _ => none

/-- The Response envelope built in `main` from an internal result record. -/
def mkResponse (id : String) (r : List (String × JVal)) : Response :=
  { id := id,
    success := recSuccess r,
    result := if recSuccess r then some r else none,
    error := if recSuccess r then none else recErrorMsg r }

/-- A parsed request: `request.get("id", "unknown")` together with the
method/params pair. -/
structure Request where
  id : String
  call : Call

/-- One stripped input line, as the loop classifies it: empty after
`strip()`, invalid JSON (with the decoder's message), or a parsed request. -/
inductive Line where
  | blank
  | malformed (reason : String)
  | valid (req : Request)

/-- The response emitted by the `json.JSONDecodeError` handler. -/
def parseErrorResponse (reason : String) : Response :=
  { id := "parse_error", success := false, result := none,
    error := some ("Failed to parse JSON: " ++ reason) }

/-- The `for line in sys.stdin` loop of `main`: blank lines are skipped,
malformed lines produce one `parse_error` response and the loop continues,
valid requests are dispatched and their envelope emitted. -/
def processLines (eng : Engine) : CoquiState → List Line → List Response
  | _, [] => []
  | st, .blank :: rest => processLines eng st rest
  | st, .malformed r :: rest => parseErrorResponse r :: processLines eng st rest
  | st, .valid req :: rest =>
      let o := dispatch eng st req.call
      mkResponse req.id o.record :: processLines eng o.state rest

/-- The bridge state after processing a list of input lines. -/
def stateAfter (eng : Engine) : CoquiState → List Line → CoquiState
  | st, [] => st
  | st, .blank :: rest => stateAfter eng st rest
  | st, .malformed _ :: rest => stateAfter eng st rest
  | st, .valid req :: rest => stateAfter eng (dispatch eng st req.call).state rest

/-! ### Mock bridge: `MockCoquiTTSBridge` in coqui_tts_bridge_mock.py -/

/-- The mutable fields of `MockCoquiTTSBridge` (no engine handle). -/
structure MockState where
  current_model_path : Option String
  model_info : List (String × JVal)

/-- The mock state at `__init__`. -/
def mockInit : MockState := { current_model_path := none, model_info := [] }

/-- External inputs of the mock: `str(time.time())` and Python's (runtime
randomized) string `hash`. -/
structure MockEnv where
  now : String
  hashText : String → Int

/-- Outcome of one mock operation. -/
structure MockOut where
  record : List (String × JVal)
  state : MockState

/-- The mock `model_info` dict built on a fresh load. -/
def mock_model_info (env : MockEnv) (model_path : String) : List (String × JVal) :=
  [("name", .str (basename model_path)),
   ("path", .str model_path),
   ("device", .str "cpu"),
   ("language", .str (if strContains (strLower model_path) "bangla"
                        || strContains (strLower model_path) "bn"
                      then "bn" else "multilingual")),
   ("loaded_at", .str env.now),
   ("speakers", .arr [.str "default_speaker"]),
   ("use_gpu", .bool false)]

/-- `MockCoquiTTSBridge.load_model`: no filesystem check, no failure path
(the body cannot raise); same-path reload is the same no-op as the real
bridge. `config_path`, `speaker_wav` and `use_gpu` are accepted and unused. -/
def mock_load_model (env : MockEnv) (st : MockState) (model_path : String)
    (config_path : Option String) (use_gpu : Bool) : MockOut :=
  if st.current_model_path == some model_path then
    { record := [("success", .bool true),
                 ("message", .str "Model already loaded"),
                 ("model_info", .obj st.model_info)],
      state := st }
  else
    let info := mock_model_info env model_path
    { record := [("success", .bool true),
                 ("message", .str "Mock model loaded successfully on cpu"),
                 ("model_info", .obj info)],
      state := { current_model_path := some model_path, model_info := info } }

/-- `min(samples, 1000)` byte pattern: `samples = int(len(text)*0.1*22050)`.
The float product is within one unit of `len(text) * 2205` (and `≥ 2204` for
any non-empty text), so the cap `min(·, 1000)` is unaffected by float
rounding; the bytes are `(i + hash(text)) % 256`. -/
def mock_audio_bytes (text : String) (hashText : Int) : List Nat :=
  (List.range (min (text.length * 2205) 1000)).map
    (fun i => ((Int.ofNat i + hashText) % 256).toNat)

/-- `MockCoquiTTSBridge.synthesize_speech`: the guard
`if not self.current_model_path` is a Python truthiness test, so `None` and
the empty string both count as no model loaded;
`processing_time = len(text) * 0.01`. -/
def mock_synthesize_speech (env : MockEnv) (st : MockState) (text : String)
    (speaker_wav : Option String) (language : String) : MockOut :=
  if !truthy st.current_model_path then
      { record := [("success", .bool false),
                   ("error", .str "No model loaded. Please load a model first.")],
        state := st }
  else
      let bytes := mock_audio_bytes text (env.hashText text)
      { record := [("success", .bool true),
                   ("audio_data", .str (base64Encode bytes)),
                   ("audio_length", .nat bytes.length),
                   ("text_length", .nat text.length),
                   ("language", .str language),
                   ("speaker_wav", optJ speaker_wav),
                   ("processing_time", .rat ((text.length : Rat) / 100))],
        state := st }

/-- `MockCoquiTTSBridge.get_model_info`: same truthiness guard
`if not self.current_model_path` (`None` and `""` both fail). -/
def mock_get_model_info (st : MockState) : MockOut :=
  if !truthy st.current_model_path then
      { record := [("success", .bool false), ("error", .str "No model loaded")],
        state := st }
  else
      { record := [("success", .bool true), ("model_info", .obj st.model_info)],
        state := st }

/-- `MockCoquiTTSBridge.unload_model`: the truthiness test
`if self.current_model_path` decides between clearing the state and the
no-op branch (`None` and `""` both take the no-op); success either way;
cannot fail. -/
def mock_unload_model (st : MockState) : MockOut :=
  if truthy st.current_model_path then
      { record := [("success", .bool true),
                   ("message", .str "Mock model unloaded successfully")],
        state := mockInit }
  else
      { record := [("success", .bool true),
                   ("message", .str "No model was loaded")],
        state := st }

/-- The mock's fixed five-entry catalog. -/
def mockCatalog : List String :=
  ["tts_models/multilingual/multi-dataset/xtts_v2",
   "tts_models/en/ljspeech/tacotron2-DDC",
   "tts_models/en/ljspeech/glow-tts",
   "tts_models/bn/custom/bangla-model-v1",
   "tts_models/bn/custom/bangla-model-v2"]

/-- `MockCoquiTTSBridge.list_available_models`: same Bangla filter as the
real bridge, applied to the fixed catalog; no 20-entry cap. -/
def mock_list_available_models (st : MockState) : MockOut :=
  { record := [("success", .bool true),
               ("all_models", .arr (mockCatalog.map .str)),
               ("bangla_models", .arr ((mockCatalog.filter isBangla).map .str)),
               ("total_models", .nat mockCatalog.length)],
    state := st }

/-- The mock `main` routing (identical `if/elif` chain). -/
def mockDispatch (env : MockEnv) (st : MockState) : Call → MockOut
  | .load p cfg gpu => mock_load_model env st p cfg gpu
  | .synth t sw lang => mock_synthesize_speech env st t sw lang
  | .info => mock_get_model_info st
  | .unload => mock_unload_model st
  | .listModels => mock_list_available_models st
  | .other name =>
      { record := [("success", .bool false),
                   ("error", .str ("Unknown method: " ++ name))],
        state := st }

/-! ### Invariants and record views -/

/-- The spec's ModelState invariant for the real bridge: `model_info` is
non-empty iff `current_model_path` is set iff `tts_model` is set. -/
def coquiInv (st : CoquiState) : Prop :=
  (st.model_info.isEmpty = false ↔ st.current_model_path.isSome = true)
  ∧ (st.current_model_path.isSome = true ↔ st.tts_model.isSome = true)

/-- The ModelState invariant for the mock bridge. -/
def mockInv (st : MockState) : Prop :=
  st.model_info.isEmpty = false ↔ st.current_model_path.isSome = true

/-- The key list ("shape") of a result record. -/
def recKeys (r : List (String × JVal)) : List String := r.map Prod.fst

instance : DecidablePred coquiInv := fun st => by
  unfold coquiInv; infer_instance

instance : DecidablePred mockInv := fun st => by
  unfold mockInv; infer_instance

/-- Run `n` consecutive `load_model(X)` calls back-to-back, collecting each
call's event list. -/
def iterLoad (eng : Engine) (X : String) (cfg : Option String) (gpu : Bool) :
    Nat → CoquiState → CoquiState × List (List Event)
  | 0, st => (st, [])
  | n + 1, st =>
      let o := load_model eng st X cfg gpu
      let r := iterLoad eng X cfg gpu n o.state
      (r.1, o.events :: r.2)

/-- Well-formedness of a result record as the dispatcher relies on it: a
failing record carries a string under `"error"`. -/
def recWF (r : List (String × JVal)) : Prop :=
  recSuccess r = false → ∃ msg, r.lookup "error" = some (.str msg)

/-! ### Concrete fixtures for witnesses and counterexamples -/

/-- A concrete TTS handle: two named speakers, Bangla. -/
def h0 : TTSHandle := { speakers := ["s1", "s2"], language := "bn" }

/-- A concrete engine: no CUDA, acquisition always succeeds with `h0`, no
file exists on disk, synthesis always yields three bytes, empty catalog. -/
def eng0 : Engine :=
  { cudaAvailable := false,
    acquire := fun _ _ _ => .ok h0,
    fileExists := fun _ => false,
    synth := fun _ _ => .ok [1, 2, 3],
    emptyCacheOk := true,
    cudaErrorText := "cuda error",
    catalog := .ok [],
    tracebackText := "tb" }

/-- A real-bridge state with `tts_models/a` loaded. -/
def st1 : CoquiState :=
  { tts_model := some h0, current_model_path := some "tts_models/a",
    model_info := mkModelInfo "tts_models/a" "cpu" h0 }

/-- A concrete mock environment. -/
def env0 : MockEnv := { now := "0", hashText := fun _ => 0 }

/-- A mock state with `tts_models/a` loaded. -/
def mst1 : MockState :=
  { current_model_path := some "tts_models/a",
    model_info := mock_model_info env0 "tts_models/a" }

/-- A 21-entry catalog whose only Bangla entry sits at index 20, past the
20-entry cap of `all_models`. -/
def cat21 : List String :=
  List.replicate 20 "tts_models/en/ljspeech/glow-tts"
    ++ ["tts_models/bn/custom/bangla-model-v1"]

/-- `eng0` with the 21-entry catalog. -/
def engCat : Engine := { eng0 with catalog := .ok cat21 }

/-! ## Theorems -/

theorem b64Val_b64Char : ∀ k, k < 64 → b64Val (b64Char k) = k := by decide

theorem b64Char_ne_pad : ∀ k, k < 64 → b64Char k ≠ '=' := by decide

/-- Base64 decoding inverts encoding on genuine byte lists. -/
theorem b64_roundtrip :
    ∀ bs : List Nat, (∀ b ∈ bs, b < 256) →
      b64DecodeChars (b64EncodeBytes bs) = bs
  | [], _ => rfl
  | [b1], h => by
      have hb1 : b1 < 256 := h b1 (by simp)
      have h1 : b1 / 4 < 64 := by omega
      have h2 : b1 % 4 * 16 < 64 := by omega
      have hne2 : (b64Char (b1 % 4 * 16) == '=') = false := by
        simpa using b64Char_ne_pad _ h2
      simp [b64EncodeBytes, b64DecodeChars, hne2,
        b64Val_b64Char _ h1, b64Val_b64Char _ h2]
      omega
  | [b1, b2], h => by
      have hb1 : b1 < 256 := h b1 (by simp)
      have hb2 : b2 < 256 := h b2 (by simp)
      have h1 : b1 / 4 < 64 := by omega
      have h2 : b1 % 4 * 16 + b2 / 16 < 64 := by omega
      have h3 : b2 % 16 * 4 < 64 := by omega
      have hne3 : (b64Char (b2 % 16 * 4) == '=') = false := by
        simpa using b64Char_ne_pad _ h3
      simp [b64EncodeBytes, b64DecodeChars, hne3,
        b64Val_b64Char _ h1, b64Val_b64Char _ h2, b64Val_b64Char _ h3]
      omega
  | b1 :: b2 :: b3 :: b4 :: rest, h => by
      have hb1 : b1 < 256 := h b1 (by simp)
      have hb2 : b2 < 256 := h b2 (by simp)
      have hb3 : b3 < 256 := h b3 (by simp)
      have h1 : b1 / 4 < 64 := by omega
      have h2 : b1 % 4 * 16 + b2 / 16 < 64 := by omega
      have h3 : b2 % 16 * 4 + b3 / 64 < 64 := by omega
      have h4 : b3 % 64 < 64 := by omega
      have hne3 : (b64Char (b2 % 16 * 4 + b3 / 64) == '=') = false := by
        simpa using b64Char_ne_pad _ h3
      have hne4 : (b64Char (b3 % 64) == '=') = false := by
        simpa using b64Char_ne_pad _ h4
      have ih := b64_roundtrip (b4 :: rest) (fun b hb => h b (by simp [hb]))
      simp only [b64EncodeBytes, b64DecodeChars, hne3, hne4, Bool.false_eq_true,
        if_false, b64Val_b64Char _ h1, b64Val_b64Char _ h2, b64Val_b64Char _ h3,
        b64Val_b64Char _ h4]
      simp only [List.cons.injEq]
      exact ⟨by omega, by omega, by omega, ih⟩
  | [b1, b2, b3], h => by
      have hb1 : b1 < 256 := h b1 (by simp)
      have hb2 : b2 < 256 := h b2 (by simp)
      have hb3 : b3 < 256 := h b3 (by simp)
      have h1 : b1 / 4 < 64 := by omega
      have h2 : b1 % 4 * 16 + b2 / 16 < 64 := by omega
      have h3 : b2 % 16 * 4 + b3 / 64 < 64 := by omega
      have h4 : b3 % 64 < 64 := by omega
      have hne3 : (b64Char (b2 % 16 * 4 + b3 / 64) == '=') = false := by
        simpa using b64Char_ne_pad _ h3
      have hne4 : (b64Char (b3 % 64) == '=') = false := by
        simpa using b64Char_ne_pad _ h4
      simp [b64EncodeBytes, b64DecodeChars, hne3, hne4,
        b64Val_b64Char _ h1, b64Val_b64Char _ h2, b64Val_b64Char _ h3,
        b64Val_b64Char _ h4]
      omega

/-- The string-level round trip. -/
theorem base64_roundtrip (bs : List Nat) (h : ∀ b ∈ bs, b < 256) :
    base64Decode (base64Encode bs) = bs := by
  simpa [base64Decode, base64Encode] using b64_roundtrip bs h

/-- Helper: a fresh-load success state satisfies the invariant. -/
theorem coquiInv_loaded (h : TTSHandle) (p device : String) :
    coquiInv { tts_model := some h, current_model_path := some p,
               model_info := mkModelInfo p device h } := by
  simp [coquiInv, mkModelInfo]

/-- C1: after every completed call to any of the five operations, reached
through the dispatcher — whether the call reports success or failure — the
ModelState invariant (`model_info` non-empty iff `current_model_path` set,
and, in the real bridge, iff `tts_model` set) is preserved; no operation
leaves the state half-updated. -/
theorem C1_state_invariant :
    (∀ (eng : Engine) (st : CoquiState) (call : Call), coquiInv st →
        coquiInv (dispatch eng st call).state)
    ∧ (∀ (env : MockEnv) (mst : MockState) (call : Call), mockInv mst →
        mockInv (mockDispatch env mst call).state) := by
  constructor
  · intro eng st call h
    cases call with
    | load p cfg gpu =>
        simp only [dispatch, load_model]
        split
        · exact h
        · split
          · split
            · exact coquiInv_loaded ..
            · exact h
          · split
            · exact h
            · split
              · exact h
              · split
                · exact coquiInv_loaded ..
                · exact h
    | synth t sw lang =>
        simp only [dispatch, synthesize_speech]
        split
        · exact h
        · split <;> exact h
    | info =>
        simp only [dispatch, get_model_info]
        split <;> exact h
    | unload =>
        simp only [dispatch, unload_model]
        split
        · split <;> simp [coquiInv, initState]
        · exact h
    | listModels =>
        simp only [dispatch, list_available_models]
        split <;> exact h
    | other name => exact h
  · intro env mst call h
    cases call with
    | load p cfg gpu =>
        simp only [mockDispatch, mock_load_model]
        split
        · exact h
        · simp [mockInv, mock_model_info]
    | synth t sw lang =>
        simp only [mockDispatch, mock_synthesize_speech]
        split <;> exact h
    | info =>
        simp only [mockDispatch, mock_get_model_info]
        split <;> exact h
    | unload =>
        simp only [mockDispatch, mock_unload_model]
        split
        · simp [mockInv, mockInit]
        · exact h
    | listModels => exact h
    | other name => exact h

/-- Witness for C1 at concrete inputs. -/
theorem C1_state_invariant_witness :
    coquiInv st1 ∧ mockInv mst1
    ∧ coquiInv (dispatch eng0 st1 (Call.load "tts_models/b" none true)).state
    ∧ mockInv (mockDispatch env0 mst1 Call.unload).state :=
  ⟨by simp [coquiInv, st1, mkModelInfo],
   by simp [mockInv, mst1, mock_model_info],
   C1_state_invariant.1 eng0 st1 (Call.load "tts_models/b" none true)
     (by simp [coquiInv, st1, mkModelInfo]),
   C1_state_invariant.2 env0 mst1 Call.unload
     (by simp [mockInv, mst1, mock_model_info])⟩

/-- Helper: `recSuccess` of a record that starts with `success: false`. -/
theorem recSuccess_false_cons (rest : List (String × JVal)) :
    recSuccess (("success", JVal.bool false) :: rest) = false := by
  simp [recSuccess, List.lookup]

/-- Helper: `recSuccess` of a record that starts with `success: true`. -/
theorem recSuccess_true_cons (rest : List (String × JVal)) :
    recSuccess (("success", JVal.bool true) :: rest) = true := by
  simp [recSuccess, List.lookup]

/-- Helper: reloading the already-loaded path is a pure no-op. -/
theorem load_model_noop (eng : Engine) (st : CoquiState) (X : String)
    (cfg : Option String) (gpu : Bool)
    (h1 : st.tts_model.isSome = true) (h2 : st.current_model_path = some X) :
    load_model eng st X cfg gpu =
      { record := [("success", .bool true),
                   ("message", .str "Model already loaded"),
                   ("model_info", .obj st.model_info)],
        state := st, events := [] } := by
  simp [load_model, h1, h2]

/-- Helper: a successful `load_model` leaves exactly the requested path
loaded. -/
theorem load_model_success_loaded (eng : Engine) (st : CoquiState) (X : String)
    (cfg : Option String) (gpu : Bool) :
    recSuccess (load_model eng st X cfg gpu).record = true →
    (load_model eng st X cfg gpu).state.tts_model.isSome = true
    ∧ (load_model eng st X cfg gpu).state.current_model_path = some X := by
  unfold load_model
  repeat' split
  all_goals intro h
  all_goals revert h
  all_goals dsimp only
  all_goals try split
  all_goals intro h
  all_goals try (simp only [recSuccess_false_cons] at h; cases h)
  all_goals simp_all [Bool.and_eq_true, beq_iff_eq]

/-- Helper: once the requested path is loaded, any number of further
`load_model(X)` calls leave the state untouched and emit no events. -/
theorem iterLoad_stable (eng : Engine) (X : String) (cfg : Option String)
    (gpu : Bool) (st' : CoquiState)
    (h1 : st'.tts_model.isSome = true) (h2 : st'.current_model_path = some X) :
    ∀ n, (iterLoad eng X cfg gpu n st').1 = st'
      ∧ ∀ evs ∈ (iterLoad eng X cfg gpu n st').2, evs = ([] : List Event)
  | 0 => by simp [iterLoad]
  | n + 1 => by
      have hno := load_model_noop eng st' X cfg gpu h1 h2
      have ih := iterLoad_stable eng X cfg gpu st' h1 h2 n
      simp only [iterLoad, hno]
      refine ⟨ih.1, ?_⟩
      intro evs hm
      rcases List.mem_cons.mp hm with h | h
      · exact h
      · exact ih.2 evs h

/-- C2: if a model with identifier `X` is already loaded, `load_model(X)`
performs no new acquisition and succeeds with the stored `model_info`
unchanged (real and mock bridge); consequently, in a back-to-back sequence
of `load_model(X)` calls whose first call succeeds, every later call leaves
the ModelState identical and emits no acquisition events. -/
theorem C2_idempotent_reload :
    (∀ (eng : Engine) (st : CoquiState) (X : String) (cfg : Option String) (gpu : Bool),
        st.tts_model.isSome = true → st.current_model_path = some X →
        load_model eng st X cfg gpu =
          { record := [("success", .bool true),
                       ("message", .str "Model already loaded"),
                       ("model_info", .obj st.model_info)],
            state := st, events := [] })
    ∧ (∀ (env : MockEnv) (mst : MockState) (X : String) (cfg : Option String) (gpu : Bool),
        mst.current_model_path = some X →
        mock_load_model env mst X cfg gpu =
          { record := [("success", .bool true),
                       ("message", .str "Model already loaded"),
                       ("model_info", .obj mst.model_info)],
            state := mst })
    ∧ (∀ (eng : Engine) (st : CoquiState) (X : String) (cfg : Option String)
          (gpu : Bool) (n : Nat),
        recSuccess (load_model eng st X cfg gpu).record = true →
        (iterLoad eng X cfg gpu (n + 1) st).1 = (load_model eng st X cfg gpu).state
        ∧ ∀ evs ∈ ((iterLoad eng X cfg gpu (n + 1) st).2).tail, evs = ([] : List Event)) := by
  refine ⟨?_, ?_, ?_⟩
  · intro eng st X cfg gpu h1 h2
    exact load_model_noop eng st X cfg gpu h1 h2
  · intro env mst X cfg gpu h2
    simp [mock_load_model, h2]
  · intro eng st X cfg gpu n h
    obtain ⟨h1, h2⟩ := load_model_success_loaded eng st X cfg gpu h
    have stbl := iterLoad_stable eng X cfg gpu _ h1 h2 n
    simp only [iterLoad]
    exact ⟨stbl.1, fun evs hm => stbl.2 evs (by simpa using hm)⟩

/-- Witness for C2 at concrete inputs. -/
theorem C2_idempotent_reload_witness :
    (st1.tts_model.isSome = true) ∧ (st1.current_model_path = some "tts_models/a")
    ∧ load_model eng0 st1 "tts_models/a" none true =
        { record := [("success", .bool true),
                     ("message", .str "Model already loaded"),
                     ("model_info", .obj st1.model_info)],
          state := st1, events := [] }
    ∧ mock_load_model env0 mst1 "tts_models/a" none true =
        { record := [("success", .bool true),
                     ("message", .str "Model already loaded"),
                     ("model_info", .obj mst1.model_info)],
          state := mst1 }
    ∧ (recSuccess (load_model eng0 initState "tts_models/a" none true).record = true)
    ∧ (iterLoad eng0 "tts_models/a" none true 2 initState).1
        = (load_model eng0 initState "tts_models/a" none true).state :=
  ⟨rfl, rfl,
   C2_idempotent_reload.1 eng0 st1 "tts_models/a" none true rfl rfl,
   C2_idempotent_reload.2.1 env0 mst1 "tts_models/a" none true rfl,
   by rw [show (load_model eng0 initState "tts_models/a" none true).record
        = ("success", JVal.bool true)
          :: [("message", .str "Model loaded successfully on cpu"),
              ("model_info", .obj (mkModelInfo "tts_models/a" "cpu" h0))] from rfl,
      recSuccess_true_cons],
   (C2_idempotent_reload.2.2 eng0 initState "tts_models/a" none true 1
      (by rw [show (load_model eng0 initState "tts_models/a" none true).record
            = ("success", JVal.bool true)
              :: [("message", .str "Model loaded successfully on cpu"),
                  ("model_info", .obj (mkModelInfo "tts_models/a" "cpu" h0))] from rfl,
          recSuccess_true_cons])).1⟩

/-- Helper: with a model loaded and a succeeding engine, synthesis
succeeds. -/
theorem synthesize_speech_success (eng : Engine) (st : CoquiState)
    (text : String) (sw : Option String) (lang : String)
    (hsome : st.tts_model.isSome = true)
    (hsyn : ∀ m t, ∃ bs, eng.synth m t = Except.ok bs) :
    recSuccess (synthesize_speech eng st text sw lang).record = true := by
  obtain ⟨h', hh⟩ := Option.isSome_iff_exists.mp hsome
  unfold synthesize_speech
  rw [hh]
  dsimp only
  split
  case h_1 => exact recSuccess_true_cons _
  case h_2 e heq =>
    obtain ⟨bs, hbs⟩ := hsyn _ text
    rw [hbs] at heq
    cases heq

/-- Helper: with a model loaded, `get_model_info` succeeds. -/
theorem get_model_info_success (st : CoquiState)
    (hsome : st.tts_model.isSome = true) :
    recSuccess (get_model_info st).record = true := by
  obtain ⟨h', hh⟩ := Option.isSome_iff_exists.mp hsome
  unfold get_model_info
  rw [hh]
  exact recSuccess_true_cons _

/-- Helper: when the mock's truthiness guard passes, `get_model_info`
returns the stored info. -/
theorem mock_get_model_info_truthy (mst : MockState)
    (h : truthy mst.current_model_path = true) :
    mock_get_model_info mst =
      { record := [("success", .bool true), ("model_info", .obj mst.model_info)],
        state := mst } := by
  unfold mock_get_model_info
  simp [h]

/-- Helper: when the mock's truthiness guard passes, synthesis succeeds with
the generated byte pattern. -/
theorem mock_synthesize_speech_truthy (env : MockEnv) (mst : MockState)
    (text : String) (sw : Option String) (lang : String)
    (h : truthy mst.current_model_path = true) :
    mock_synthesize_speech env mst text sw lang =
      { record := [("success", .bool true),
                   ("audio_data",
                     .str (base64Encode (mock_audio_bytes text (env.hashText text)))),
                   ("audio_length", .nat (mock_audio_bytes text (env.hashText text)).length),
                   ("text_length", .nat text.length),
                   ("language", .str lang),
                   ("speaker_wav", optJ sw),
                   ("processing_time", .rat ((text.length : Rat) / 100))],
        state := mst } := by
  unfold mock_synthesize_speech
  simp [h]

/-- Helper: when the mock's truthiness guard fails (`None` or `""`), both
read operations return the no-model failure and leave the state alone. -/
theorem mock_guard_falsy (env : MockEnv) (mst : MockState) (text : String)
    (sw : Option String) (lang : String)
    (h : truthy mst.current_model_path = false) :
    mock_get_model_info mst =
      { record := [("success", .bool false), ("error", .str "No model loaded")],
        state := mst }
    ∧ mock_synthesize_speech env mst text sw lang =
      { record := [("success", .bool false),
                   ("error", .str "No model loaded. Please load a model first.")],
        state := mst } := by
  constructor
  · unfold mock_get_model_info
    simp [h]
  · unfold mock_synthesize_speech
    simp [h]

/-- Helper: loading a non-empty identifier leaves the mock's stored path
truthy (both on the no-op branch and on a fresh load). -/
theorem mock_load_model_truthy (env : MockEnv) (mst : MockState) (X : String)
    (cfg : Option String) (gpu : Bool) (hX : (X == "") = false) :
    truthy (mock_load_model env mst X cfg gpu).state.current_model_path = true := by
  unfold mock_load_model
  split
  case isTrue hc =>
      have hc' : mst.current_model_path = some X := by
        simpa [beq_iff_eq] using hc
      simp [hc', truthy, hX]
  case isFalse =>
      simp [truthy, hX]

/-- C3 counterexample: the mock accepts `load_model("")` as a success (its
reload guard is an equality test), but its operation guards
(`if not self.current_model_path`) are truthiness tests that treat the
stored empty string as "no model loaded", so both `get_model_info` and
`synthesize_speech` then fail — refuting "after any successful load_model,
both operations succeed" on the mock bridge. -/
theorem C3_counterexample :
    recSuccess (mock_load_model env0 mockInit "" none true).record = true
    ∧ (mock_load_model env0 mockInit "" none true).state.current_model_path
        = some ""
    ∧ recSuccess (mock_get_model_info
        (mock_load_model env0 mockInit "" none true).state).record = false
    ∧ recSuccess (mock_synthesize_speech env0
        (mock_load_model env0 mockInit "" none true).state "hi" none "bn").record
        = false :=
  ⟨rfl, rfl, rfl, rfl⟩

/-- C3 as amended: when the no-model guard fires, `get_model_info` and
`synthesize_speech` both fail with the no-model error and perform no work
(no temp file, no engine call) — in the real bridge the guard is
`tts_model is None`, in the mock it is Python truthiness of the stored path
(`None` or `""`); after any successful `load_model`, both operations succeed
(synthesis under the hypothesis that the engine's calls succeed), except
that in the mock the loaded identifier must be non-empty: a successful mock
load of `""` leaves both operations still reporting no model loaded. -/
theorem C3_amended_notloaded_guard :
    (∀ (eng : Engine) (st : CoquiState) (text : String) (sw : Option String)
        (lang : String), st.tts_model = none →
        get_model_info st =
          { record := [("success", .bool false), ("error", .str "No model loaded")],
            state := st, events := [] }
        ∧ synthesize_speech eng st text sw lang =
          { record := [("success", .bool false),
                       ("error", .str "No model loaded. Please load a model first.")],
            state := st, events := [] })
    ∧ (∀ (eng : Engine) (st : CoquiState) (X : String) (cfg : Option String)
          (gpu : Bool),
        recSuccess (load_model eng st X cfg gpu).record = true →
        recSuccess (get_model_info (load_model eng st X cfg gpu).state).record = true
        ∧ ∀ (text : String) (sw : Option String) (lang : String),
            (∀ m t, ∃ bs, eng.synth m t = Except.ok bs) →
            recSuccess (synthesize_speech eng (load_model eng st X cfg gpu).state
              text sw lang).record = true)
    ∧ (∀ (env : MockEnv) (mst : MockState) (text : String) (sw : Option String)
          (lang : String), truthy mst.current_model_path = false →
        mock_get_model_info mst =
          { record := [("success", .bool false), ("error", .str "No model loaded")],
            state := mst }
        ∧ mock_synthesize_speech env mst text sw lang =
          { record := [("success", .bool false),
                       ("error", .str "No model loaded. Please load a model first.")],
            state := mst })
    ∧ (∀ (env : MockEnv) (mst : MockState) (X : String) (cfg : Option String)
          (gpu : Bool) (text : String) (sw : Option String) (lang : String),
        (X == "") = false →
        recSuccess (mock_get_model_info
            (mock_load_model env mst X cfg gpu).state).record = true
        ∧ recSuccess (mock_synthesize_speech env
            (mock_load_model env mst X cfg gpu).state text sw lang).record = true) := by
  refine ⟨?_, ?_, ?_, ?_⟩
  · intro eng st text sw lang h
    constructor
    · simp [get_model_info, h]
    · simp [synthesize_speech, h]
  · intro eng st X cfg gpu h
    obtain ⟨h1, _⟩ := load_model_success_loaded eng st X cfg gpu h
    refine ⟨get_model_info_success _ h1, ?_⟩
    intro text sw lang hsyn
    exact synthesize_speech_success eng _ text sw lang h1 hsyn
  · intro env mst text sw lang h
    exact mock_guard_falsy env mst text sw lang h
  · intro env mst X cfg gpu text sw lang hX
    have htr := mock_load_model_truthy env mst X cfg gpu hX
    constructor
    · rw [mock_get_model_info_truthy _ htr]
      exact recSuccess_true_cons _
    · rw [mock_synthesize_speech_truthy env _ text sw lang htr]
      exact recSuccess_true_cons _

/-- Witness for the amended C3 at concrete inputs. -/
theorem C3_amended_notloaded_guard_witness :
    (initState.tts_model = none)
    ∧ (truthy mockInit.current_model_path = false)
    ∧ (("tts_models/a" == "") = false)
    ∧ (get_model_info initState =
          { record := [("success", .bool false), ("error", .str "No model loaded")],
            state := initState, events := [] }
        ∧ synthesize_speech eng0 initState "hello" none "bn" =
          { record := [("success", .bool false),
                       ("error", .str "No model loaded. Please load a model first.")],
            state := initState, events := [] })
    ∧ (recSuccess (load_model eng0 initState "tts_models/a" none true).record = true)
    ∧ (recSuccess (get_model_info
          (load_model eng0 initState "tts_models/a" none true).state).record = true)
    ∧ (recSuccess (synthesize_speech eng0
          (load_model eng0 initState "tts_models/a" none true).state
          "hello" none "bn").record = true)
    ∧ (mock_get_model_info mockInit =
          { record := [("success", .bool false), ("error", .str "No model loaded")],
            state := mockInit }
        ∧ mock_synthesize_speech env0 mockInit "hello" none "bn" =
          { record := [("success", .bool false),
                       ("error", .str "No model loaded. Please load a model first.")],
            state := mockInit })
    ∧ (recSuccess (mock_get_model_info
          (mock_load_model env0 mockInit "tts_models/a" none true).state).record = true
        ∧ recSuccess (mock_synthesize_speech env0
            (mock_load_model env0 mockInit "tts_models/a" none true).state
            "hello" none "bn").record = true) :=
  ⟨rfl, rfl, rfl,
   C3_amended_notloaded_guard.1 eng0 initState "hello" none "bn" rfl,
   rfl,
   (C3_amended_notloaded_guard.2.1 eng0 initState "tts_models/a" none true rfl).1,
   (C3_amended_notloaded_guard.2.1 eng0 initState "tts_models/a" none true rfl).2
     "hello" none "bn" (fun m t => ⟨[1, 2, 3], rfl⟩),
   C3_amended_notloaded_guard.2.2.1 env0 mockInit "hello" none "bn" rfl,
   C3_amended_notloaded_guard.2.2.2 env0 mockInit "tts_models/a" none true
     "hello" none "bn" rfl⟩

/-- C9: every call to the real `synthesize_speech` either performs no work
at all (the not-loaded guard) or creates its temporary staging file and
deletes it before returning — on the success path and on every failure path
alike, the `finally` block removes the file, so `deleteTemp` closes the
trace. -/
theorem C9_temp_file_cleanup :
    ∀ (eng : Engine) (st : CoquiState) (text : String) (sw : Option String)
      (lang : String),
      (synthesize_speech eng st text sw lang).events = []
      ∨ ∃ mode, (synthesize_speech eng st text sw lang).events
          = [Event.createTemp, Event.synthCall mode, Event.deleteTemp] := by
  intro eng st text sw lang
  unfold synthesize_speech
  split
  · exact Or.inl rfl
  · dsimp only
    split
    · exact Or.inr ⟨_, rfl⟩
    · exact Or.inr ⟨_, rfl⟩

/-- C4 counterexample: with `tts_models/a` loaded, loading the different
path `tts_models/b` succeeds and replaces the model, yet the event trace is
just the new acquisition — the old backend resource is never explicitly
released, contradicting the claimed release-before-acquire pairing. -/
theorem C4_counterexample :
    recSuccess (load_model eng0 st1 "tts_models/b" none true).record = true
    ∧ (load_model eng0 st1 "tts_models/b" none true).state.current_model_path
        = some "tts_models/b"
    ∧ (load_model eng0 st1 "tts_models/b" none true).events
        = [Event.acquire "tts_models/b"]
    ∧ Event.release ∉ (load_model eng0 st1 "tts_models/b" none true).events := by
  refine ⟨rfl, rfl, rfl, ?_⟩
  rw [show (load_model eng0 st1 "tts_models/b" none true).events
      = [Event.acquire "tts_models/b"] from rfl]
  simp

/-- C4 as amended: `load_model` never emits an explicit release — replacing
a loaded model merely overwrites the handle while acquiring the new one; the
only explicit release happens in `unload_model` (when a model is loaded),
and a failed load leaves the state, old model included, unchanged. -/
theorem C4_amended_no_release_on_replace :
    (∀ (eng : Engine) (st : CoquiState) (p : String) (cfg : Option String)
        (gpu : Bool), Event.release ∉ (load_model eng st p cfg gpu).events)
    ∧ (∀ (eng : Engine) (st : CoquiState), st.tts_model.isSome = true →
        (unload_model eng st).events = [Event.release]
        ∧ (unload_model eng st).state = initState)
    ∧ (∀ (eng : Engine) (st : CoquiState) (p : String) (cfg : Option String)
        (gpu : Bool),
        recSuccess (load_model eng st p cfg gpu).record = false →
        (load_model eng st p cfg gpu).state = st) := by
  refine ⟨?_, ?_, ?_⟩
  · intro eng st p cfg gpu
    unfold load_model
    repeat' split
    all_goals dsimp only
    all_goals try split
    all_goals simp
  · intro eng st h
    obtain ⟨hd, hh⟩ := Option.isSome_iff_exists.mp h
    unfold unload_model
    rw [hh]
    dsimp only
    split <;> exact ⟨rfl, rfl⟩
  · intro eng st p cfg gpu
    unfold load_model
    repeat' split
    all_goals intro h
    all_goals revert h
    all_goals dsimp only
    all_goals try split
    all_goals intro h
    all_goals try rfl
    all_goals (rw [recSuccess_true_cons] at h; cases h)

/-- Witness for the amended C4 at concrete inputs. -/
theorem C4_amended_no_release_on_replace_witness :
    (st1.tts_model.isSome = true)
    ∧ Event.release ∉ (load_model eng0 st1 "tts_models/b" none true).events
    ∧ ((unload_model eng0 st1).events = [Event.release]
        ∧ (unload_model eng0 st1).state = initState)
    ∧ (recSuccess (load_model eng0 initState "missing.pth" none true).record = false)
    ∧ (load_model eng0 initState "missing.pth" none true).state = initState :=
  ⟨rfl,
   C4_amended_no_release_on_replace.1 eng0 st1 "tts_models/b" none true,
   C4_amended_no_release_on_replace.2.1 eng0 st1 rfl,
   rfl,
   C4_amended_no_release_on_replace.2.2 eng0 initState "missing.pth" none true rfl⟩

/-- Helper: the envelope properties follow from record well-formedness. -/
theorem mkResponse_envelope (id : String) (r : List (String × JVal))
    (h : recWF r) :
    (mkResponse id r).success = recSuccess r
    ∧ (mkResponse id r).result.isSome = (mkResponse id r).success
    ∧ (mkResponse id r).error.isSome = !(mkResponse id r).success
    ∧ ((mkResponse id r).success = true → (mkResponse id r).result = some r)
    ∧ ((mkResponse id r).success = false →
        ∃ msg, r.lookup "error" = some (.str msg)
          ∧ (mkResponse id r).error = some msg) := by
  cases hs : recSuccess r with
  | true => simp [mkResponse, hs]
  | false =>
      obtain ⟨msg, hmsg⟩ := h hs
      refine ⟨by simp [mkResponse, hs], by simp [mkResponse, hs], ?_, ?_, ?_⟩
      · simp [mkResponse, hs, recErrorMsg, hmsg]
      · simp [mkResponse, hs]
      · intro _
        exact ⟨msg, hmsg, by simp [mkResponse, hs, recErrorMsg, hmsg]⟩

/-- Helper: every record produced by the real dispatcher is well-formed. -/
theorem recWF_dispatch (eng : Engine) (st : CoquiState) (call : Call) :
    recWF (dispatch eng st call).record := by
  unfold recWF
  cases call with
  | load p cfg gpu =>
      simp only [dispatch]
      unfold load_model
      repeat' split
      all_goals intro hfail
      all_goals revert hfail
      all_goals dsimp only
      all_goals try split
      all_goals intro hfail
      all_goals first
        | (rw [recSuccess_true_cons] at hfail; cases hfail)
        | exact ⟨_, by simp [List.lookup] <;> rfl⟩
  | synth t sw lang =>
      simp only [dispatch]
      unfold synthesize_speech
      repeat' split
      all_goals intro hfail
      all_goals revert hfail
      all_goals dsimp only
      all_goals try split
      all_goals intro hfail
      all_goals first
        | (rw [recSuccess_true_cons] at hfail; cases hfail)
        | exact ⟨_, by simp [List.lookup] <;> rfl⟩
  | info =>
      simp only [dispatch]
      unfold get_model_info
      split
      all_goals intro hfail
      all_goals first
        | (rw [recSuccess_true_cons] at hfail; cases hfail)
        | exact ⟨_, by simp [List.lookup] <;> rfl⟩
  | unload =>
      simp only [dispatch]
      unfold unload_model
      repeat' split
      all_goals intro hfail
      all_goals first
        | (rw [recSuccess_true_cons] at hfail; cases hfail)
        | exact ⟨_, by simp [List.lookup] <;> rfl⟩
  | listModels =>
      simp only [dispatch]
      unfold list_available_models
      split
      all_goals intro hfail
      all_goals first
        | (rw [recSuccess_true_cons] at hfail; cases hfail)
        | exact ⟨_, by simp [List.lookup] <;> rfl⟩
  | other name =>
      intro hfail
      exact ⟨_, by simp [List.lookup] <;> rfl⟩

/-- Helper: every record produced by the mock dispatcher is well-formed. -/
theorem recWF_mockDispatch (env : MockEnv) (mst : MockState) (call : Call) :
    recWF (mockDispatch env mst call).record := by
  unfold recWF
  cases call with
  | load p cfg gpu =>
      simp only [mockDispatch]
      unfold mock_load_model
      split
      all_goals intro hfail
      all_goals dsimp only at hfail
      all_goals (rw [recSuccess_true_cons] at hfail; cases hfail)
  | synth t sw lang =>
      simp only [mockDispatch]
      unfold mock_synthesize_speech
      split
      all_goals intro hfail
      all_goals dsimp only at hfail
      all_goals first
        | (rw [recSuccess_true_cons] at hfail; cases hfail)
        | exact ⟨_, by simp [List.lookup] <;> rfl⟩
  | info =>
      simp only [mockDispatch]
      unfold mock_get_model_info
      split
      all_goals intro hfail
      all_goals first
        | (rw [recSuccess_true_cons] at hfail; cases hfail)
        | exact ⟨_, by simp [List.lookup] <;> rfl⟩
  | unload =>
      simp only [mockDispatch]
      unfold mock_unload_model
      split
      all_goals intro hfail
      all_goals (rw [recSuccess_true_cons] at hfail; cases hfail)
  | listModels =>
      intro hfail
      simp only [mockDispatch] at hfail
      rw [show recSuccess (mock_list_available_models mst).record = true
          from recSuccess_true_cons _] at hfail
      cases hfail
  | other name =>
      intro hfail
      exact ⟨_, by simp [List.lookup] <;> rfl⟩

/-- C5: every Response built by the dispatcher for a parsed request has
`result` present iff `success` and `error` present iff not `success`; on
success `result` is the operation's internal record, on failure `error`
carries the record's error message. Real and mock dispatchers. -/
theorem C5_response_envelope :
    (∀ (eng : Engine) (st : CoquiState) (call : Call) (id : String),
        ((mkResponse id (dispatch eng st call).record).result.isSome
            = (mkResponse id (dispatch eng st call).record).success)
        ∧ ((mkResponse id (dispatch eng st call).record).error.isSome
            = !(mkResponse id (dispatch eng st call).record).success)
        ∧ ((mkResponse id (dispatch eng st call).record).success = true →
            (mkResponse id (dispatch eng st call).record).result
              = some (dispatch eng st call).record)
        ∧ ((mkResponse id (dispatch eng st call).record).success = false →
            ∃ msg, (dispatch eng st call).record.lookup "error" = some (.str msg)
              ∧ (mkResponse id (dispatch eng st call).record).error = some msg))
    ∧ (∀ (env : MockEnv) (mst : MockState) (call : Call) (id : String),
        ((mkResponse id (mockDispatch env mst call).record).result.isSome
            = (mkResponse id (mockDispatch env mst call).record).success)
        ∧ ((mkResponse id (mockDispatch env mst call).record).error.isSome
            = !(mkResponse id (mockDispatch env mst call).record).success)
        ∧ ((mkResponse id (mockDispatch env mst call).record).success = true →
            (mkResponse id (mockDispatch env mst call).record).result
              = some (mockDispatch env mst call).record)
        ∧ ((mkResponse id (mockDispatch env mst call).record).success = false →
            ∃ msg, (mockDispatch env mst call).record.lookup "error" = some (.str msg)
              ∧ (mkResponse id (mockDispatch env mst call).record).error = some msg)) := by
  constructor
  · intro eng st call id
    have h := mkResponse_envelope id (dispatch eng st call).record
      (recWF_dispatch eng st call)
    exact ⟨h.2.1, h.2.2.1, h.2.2.2.1, h.2.2.2.2⟩
  · intro env mst call id
    have h := mkResponse_envelope id (mockDispatch env mst call).record
      (recWF_mockDispatch env mst call)
    exact ⟨h.2.1, h.2.2.1, h.2.2.2.1, h.2.2.2.2⟩

/-- Witness for C5 at concrete inputs: an unknown-method failure and a
successful unload on each bridge. -/
theorem C5_response_envelope_witness :
    ((mkResponse "1" (dispatch eng0 initState (Call.other "nope")).record).success
      = false)
    ∧ (∃ msg, (dispatch eng0 initState (Call.other "nope")).record.lookup "error"
          = some (.str msg)
        ∧ (mkResponse "1" (dispatch eng0 initState (Call.other "nope")).record).error
          = some msg)
    ∧ ((mkResponse "2" (dispatch eng0 initState Call.unload).record).success = true)
    ∧ ((mkResponse "2" (dispatch eng0 initState Call.unload).record).result
        = some (dispatch eng0 initState Call.unload).record)
    ∧ ((mkResponse "3" (mockDispatch env0 mockInit (Call.other "nope")).record).success
      = false)
    ∧ (∃ msg, (mockDispatch env0 mockInit (Call.other "nope")).record.lookup "error"
          = some (.str msg)
        ∧ (mkResponse "3" (mockDispatch env0 mockInit (Call.other "nope")).record).error
          = some msg) :=
  ⟨rfl,
   (C5_response_envelope.1 eng0 initState (Call.other "nope") "1").2.2.2 rfl,
   rfl,
   (C5_response_envelope.1 eng0 initState Call.unload "2").2.2.1 rfl,
   rfl,
   (C5_response_envelope.2 env0 mockInit (Call.other "nope") "3").2.2.2 rfl⟩

/-- Helper: processing distributes over concatenation of input lines, with
the state threaded through. -/
theorem processLines_append (eng : Engine) (st : CoquiState) (xs ys : List Line) :
    processLines eng st (xs ++ ys) =
      processLines eng st xs ++ processLines eng (stateAfter eng st xs) ys := by
  induction xs generalizing st with
  | nil => simp [processLines, stateAfter]
  | cons x rest ih =>
      cases x <;> simp [processLines, stateAfter, ih]

/-- C6: a malformed (non-empty, invalid JSON) input line produces exactly
one Response, with sentinel id `"parse_error"`, `success = false` and an
error message carrying the parse failure reason, and the loop continues
with the remaining lines unaffected; a blank line produces no response at
all and the bridge state is untouched by either. -/
theorem C6_parse_error_resilience :
    ∀ (eng : Engine) (st : CoquiState) (pre suf : List Line) (reason : String),
      processLines eng st (pre ++ Line.malformed reason :: suf) =
        processLines eng st pre
          ++ parseErrorResponse reason :: processLines eng (stateAfter eng st pre) suf
      ∧ (parseErrorResponse reason).id = "parse_error"
      ∧ (parseErrorResponse reason).success = false
      ∧ (parseErrorResponse reason).error = some ("Failed to parse JSON: " ++ reason)
      ∧ (parseErrorResponse reason).result = none
      ∧ processLines eng st (pre ++ Line.blank :: suf) = processLines eng st (pre ++ suf)
      ∧ stateAfter eng st (pre ++ Line.malformed reason :: suf)
          = stateAfter eng st (pre ++ suf) := by
  intro eng st pre suf reason
  refine ⟨?_, rfl, rfl, rfl, rfl, ?_, ?_⟩
  · rw [processLines_append]
    simp [processLines]
  · rw [processLines_append, processLines_append]
    simp [processLines]
  · induction pre generalizing st with
    | nil => simp [stateAfter]
    | cons x rest ih => cases x <;> simp [stateAfter, ih]

/-- C7 counterexample: with a 21-entry catalog whose only Bangla entry is
the 21st, `list_available_models` succeeds, its `bangla_models` contains
that entry, but the returned `all_models` (capped at the first 20) does not
— `bangla_models` is filtered from the full catalog, so it is not a subset
of the returned `all_models`. -/
theorem C7_counterexample :
    recSuccess (list_available_models engCat initState).record = true
    ∧ (list_available_models engCat initState).record.lookup "bangla_models"
        = some (.arr ((cat21.filter isBangla).map .str))
    ∧ (list_available_models engCat initState).record.lookup "all_models"
        = some (.arr ((cat21.take 20).map .str))
    ∧ "tts_models/bn/custom/bangla-model-v1" ∈ cat21.filter isBangla
    ∧ "tts_models/bn/custom/bangla-model-v1" ∉ cat21.take 20 := by
  refine ⟨rfl, rfl, rfl, ?_, ?_⟩ <;> decide

/-- C7 as amended: `bangla_models` is exactly the set of full-catalog
entries whose lower-cased identifier contains `"bn"`, `"bangla"` or
`"bengali"`, and is a subset of the full catalog; it is a subset of the
returned `all_models` only when the catalog has at most 20 entries (the
returned `all_models` is the first 20) — in particular the mock's fixed
five-entry catalog satisfies the subset claim. -/
theorem C7_amended_bangla_filter :
    (∀ (models : List String) (eng : Engine) (st : CoquiState),
        eng.catalog = Except.ok models →
        recSuccess (list_available_models eng st).record = true
        ∧ (list_available_models eng st).record.lookup "bangla_models"
            = some (.arr ((models.filter isBangla).map .str))
        ∧ (list_available_models eng st).record.lookup "all_models"
            = some (.arr ((models.take 20).map .str))
        ∧ (∀ m, m ∈ models.filter isBangla ↔ m ∈ models ∧ isBangla m = true)
        ∧ models.filter isBangla ⊆ models
        ∧ (models.length ≤ 20 → models.filter isBangla ⊆ models.take 20))
    ∧ (∀ m, m ∈ mockCatalog.filter isBangla → m ∈ mockCatalog)
    ∧ ((mock_list_available_models mockInit).record.lookup "bangla_models"
        = some (.arr ((mockCatalog.filter isBangla).map .str)))
    ∧ ((mock_list_available_models mockInit).record.lookup "all_models"
        = some (.arr (mockCatalog.map .str))) := by
  refine ⟨?_, ?_, rfl, rfl⟩
  · intro models eng st hcat
    unfold list_available_models
    rw [hcat]
    refine ⟨recSuccess_true_cons _, by simp [List.lookup], by simp [List.lookup],
      ?_, ?_, ?_⟩
    · intro m
      simp [List.mem_filter]
    · exact List.filter_subset' _
    · intro hlen
      rw [List.take_of_length_le hlen]
      exact List.filter_subset' _
  · intro m hm
    exact List.filter_subset' _ hm

/-- Witness for the amended C7 at concrete inputs. -/
theorem C7_amended_bangla_filter_witness :
    (engCat.catalog = Except.ok cat21)
    ∧ (recSuccess (list_available_models engCat initState).record = true
        ∧ (list_available_models engCat initState).record.lookup "bangla_models"
            = some (.arr ((cat21.filter isBangla).map .str))
        ∧ (list_available_models engCat initState).record.lookup "all_models"
            = some (.arr ((cat21.take 20).map .str))
        ∧ (∀ m, m ∈ cat21.filter isBangla ↔ m ∈ cat21 ∧ isBangla m = true)
        ∧ cat21.filter isBangla ⊆ cat21
        ∧ (cat21.length ≤ 20 → cat21.filter isBangla ⊆ cat21.take 20))
    ∧ ("tts_models/bn/custom/bangla-model-v1" ∈ mockCatalog.filter isBangla)
    ∧ ("tts_models/bn/custom/bangla-model-v1" ∈ mockCatalog) :=
  ⟨rfl,
   C7_amended_bangla_filter.1 cat21 engCat initState rfl,
   by decide,
   C7_amended_bangla_filter.2.1 "tts_models/bn/custom/bangla-model-v1" (by decide)⟩

/-- C8 counterexample: at the same loaded state and input, the mock's
`synthesize_speech` result record carries an extra `processing_time` key, so
the response shapes differ; and on a missing local model file the real
`load_model` fails while the mock (which never checks the filesystem)
succeeds — the mock is not exactly substitutable. -/
theorem C8_counterexample :
    recKeys (mock_synthesize_speech env0 mst1 "hi" none "bn").record
      = ["success", "audio_data", "audio_length", "text_length", "language",
         "speaker_wav", "processing_time"]
    ∧ recKeys (synthesize_speech eng0 st1 "hi" none "bn").record
      = ["success", "audio_data", "audio_length", "text_length", "language",
         "speaker_wav"]
    ∧ recKeys (mock_synthesize_speech env0 mst1 "hi" none "bn").record
        ≠ recKeys (synthesize_speech eng0 st1 "hi" none "bn").record
    ∧ recSuccess (load_model eng0 initState "model.pth" none true).record = false
    ∧ recSuccess (mock_load_model env0 mockInit "model.pth" none true).record
        = true := by
  refine ⟨rfl, rfl, ?_, rfl, rfl⟩
  rw [show recKeys (mock_synthesize_speech env0 mst1 "hi" none "bn").record
      = ["success", "audio_data", "audio_length", "text_length", "language",
         "speaker_wav", "processing_time"] from rfl,
    show recKeys (synthesize_speech eng0 st1 "hi" none "bn").record
      = ["success", "audio_data", "audio_length", "text_length", "language",
         "speaker_wav"] from rfl]
  decide

/-- C8 as amended: the mock is behaviorally substitutable for the real
backend up to three deviations — its `synthesize_speech` result carries an
extra trailing `processing_time` key; its `load_model` performs no
local-file existence check (it cannot fail); and its `unload_model` can
never fail, whereas the real bridge's unload reports failure when
`torch.cuda.empty_cache()` raises. Otherwise: unknown methods produce
identical records; the no-model guards of `get_model_info` and
`synthesize_speech` produce identical failure records; unload is an
idempotent no-op with identical records when no model is held, and has the
same result keys when loaded and the cache flush does not raise;
same-identifier reload is the same no-op with identical record shapes; and
successful loads, synthesis, get_model_info and list_available_models agree
on result keys. -/
theorem C8_amended_substitutable :
    (∀ (eng : Engine) (st : CoquiState) (env : MockEnv) (mst : MockState)
        (name : String),
        (dispatch eng st (Call.other name)).record
          = (mockDispatch env mst (Call.other name)).record)
    ∧ (∀ (eng : Engine) (st : CoquiState) (env : MockEnv) (mst : MockState)
          (text : String) (sw : Option String) (lang : String),
        st.tts_model = none → truthy mst.current_model_path = false →
        (get_model_info st).record = (mock_get_model_info mst).record
        ∧ (synthesize_speech eng st text sw lang).record
            = (mock_synthesize_speech env mst text sw lang).record)
    ∧ (∀ (eng : Engine) (st : CoquiState),
        (eng.cudaAvailable && !eng.emptyCacheOk) = false →
        st.tts_model.isSome = true →
        recKeys (unload_model eng st).record = ["success", "message"])
    ∧ (∀ (eng : Engine) (st : CoquiState),
        eng.cudaAvailable = true → eng.emptyCacheOk = false →
        st.tts_model.isSome = true →
        recSuccess (unload_model eng st).record = false)
    ∧ (∀ (mst : MockState),
        recSuccess (mock_unload_model mst).record = true
        ∧ recKeys (mock_unload_model mst).record = ["success", "message"])
    ∧ (∀ (eng : Engine) (st : CoquiState) (mst : MockState),
        st.tts_model = none → truthy mst.current_model_path = false →
        (unload_model eng st).record = (mock_unload_model mst).record
        ∧ (unload_model eng st).state = st ∧ (mock_unload_model mst).state = mst)
    ∧ (∀ (eng : Engine) (st : CoquiState) (env : MockEnv) (mst : MockState)
          (X : String) (cfg : Option String) (gpu : Bool),
        st.tts_model.isSome = true → st.current_model_path = some X →
        mst.current_model_path = some X →
        (load_model eng st X cfg gpu).record
            = [("success", .bool true), ("message", .str "Model already loaded"),
               ("model_info", .obj st.model_info)]
        ∧ (mock_load_model env mst X cfg gpu).record
            = [("success", .bool true), ("message", .str "Model already loaded"),
               ("model_info", .obj mst.model_info)]
        ∧ (load_model eng st X cfg gpu).state = st
        ∧ (mock_load_model env mst X cfg gpu).state = mst)
    ∧ (∀ (eng : Engine) (st : CoquiState) (X : String) (cfg : Option String)
          (gpu : Bool),
        recSuccess (load_model eng st X cfg gpu).record = true →
        recKeys (load_model eng st X cfg gpu).record
          = ["success", "message", "model_info"])
    ∧ (∀ (env : MockEnv) (mst : MockState) (X : String) (cfg : Option String)
          (gpu : Bool),
        recSuccess (mock_load_model env mst X cfg gpu).record = true
        ∧ recKeys (mock_load_model env mst X cfg gpu).record
            = ["success", "message", "model_info"])
    ∧ (∀ (eng : Engine) (st : CoquiState) (text : String) (sw : Option String)
          (lang : String),
        st.tts_model.isSome = true →
        (∀ m t, ∃ bs, eng.synth m t = Except.ok bs) →
        recKeys (synthesize_speech eng st text sw lang).record
          = ["success", "audio_data", "audio_length", "text_length",
             "language", "speaker_wav"])
    ∧ (∀ (env : MockEnv) (mst : MockState) (text : String) (sw : Option String)
          (lang : String),
        truthy mst.current_model_path = true →
        recKeys (mock_synthesize_speech env mst text sw lang).record
          = ["success", "audio_data", "audio_length", "text_length",
             "language", "speaker_wav", "processing_time"])
    ∧ (∀ (st : CoquiState) (mst : MockState),
        st.tts_model.isSome = true → truthy mst.current_model_path = true →
        recKeys (get_model_info st).record = ["success", "model_info"]
        ∧ recKeys (mock_get_model_info mst).record = ["success", "model_info"])
    ∧ (∀ (eng : Engine) (st : CoquiState) (mst : MockState) (models : List String),
        eng.catalog = Except.ok models →
        recKeys (list_available_models eng st).record
          = ["success", "all_models", "bangla_models", "total_models"]
        ∧ recKeys (mock_list_available_models mst).record
          = ["success", "all_models", "bangla_models", "total_models"]) := by
  refine ⟨?_, ?_, ?_, ?_, ?_, ?_, ?_, ?_, ?_, ?_, ?_, ?_, ?_⟩
  · intro eng st env mst name
    rfl
  · intro eng st env mst text sw lang h1 h2
    obtain ⟨hg, hs⟩ := mock_guard_falsy env mst text sw lang h2
    constructor
    · rw [hg]
      simp [get_model_info, h1]
    · rw [hs]
      simp [synthesize_speech, h1]
  · intro eng st hc h1
    obtain ⟨hd, hh⟩ := Option.isSome_iff_exists.mp h1
    unfold unload_model
    rw [hh]
    dsimp only
    rw [if_neg (by rw [hc]; simp)]
    rfl
  · intro eng st hcu hok h1
    obtain ⟨hd, hh⟩ := Option.isSome_iff_exists.mp h1
    unfold unload_model
    rw [hh]
    dsimp only
    rw [if_pos (by rw [hcu, hok]; rfl)]
    exact recSuccess_false_cons _
  · intro mst
    unfold mock_unload_model
    split
    · exact ⟨recSuccess_true_cons _, rfl⟩
    · exact ⟨recSuccess_true_cons _, rfl⟩
  · intro eng st mst h1 h2
    refine ⟨?_, ?_, ?_⟩ <;> simp [unload_model, mock_unload_model, h1, h2]
  · intro eng st env mst X cfg gpu h1 h2 h3
    refine ⟨?_, ?_, ?_, ?_⟩
    · have := load_model_noop eng st X cfg gpu h1 h2
      rw [this]
    · simp [mock_load_model, h3]
    · rw [load_model_noop eng st X cfg gpu h1 h2]
    · simp [mock_load_model, h3]
  · intro eng st X cfg gpu
    unfold load_model
    repeat' split
    all_goals intro h
    all_goals revert h
    all_goals dsimp only
    all_goals try split
    all_goals intro h
    all_goals try rfl
    all_goals (rw [recSuccess_false_cons] at h; cases h)
  · intro env mst X cfg gpu
    unfold mock_load_model
    split
    · exact ⟨recSuccess_true_cons _, rfl⟩
    · exact ⟨recSuccess_true_cons _, rfl⟩
  · intro eng st text sw lang h1 hsyn
    obtain ⟨hd, hh⟩ := Option.isSome_iff_exists.mp h1
    unfold synthesize_speech
    rw [hh]
    dsimp only
    split
    case h_1 => rfl
    case h_2 e heq =>
      obtain ⟨bs, hbs⟩ := hsyn _ text
      rw [hbs] at heq
      cases heq
  · intro env mst text sw lang h1
    rw [mock_synthesize_speech_truthy env mst text sw lang h1]
    rfl
  · intro st mst h1 h2
    obtain ⟨hd, hh⟩ := Option.isSome_iff_exists.mp h1
    constructor
    · unfold get_model_info
      rw [hh]
      rfl
    · rw [mock_get_model_info_truthy _ h2]
      rfl
  · intro eng st mst models hcat
    constructor
    · unfold list_available_models
      rw [hcat]
      rfl
    · rfl

/-- Witness for the amended C8 at concrete inputs, including the disclosed
real-unload failure deviation. -/
theorem C8_amended_substitutable_witness :
    (initState.tts_model = none) ∧ (truthy mockInit.current_model_path = false)
    ∧ (st1.tts_model.isSome = true) ∧ (truthy mst1.current_model_path = true)
    ∧ ((eng0.cudaAvailable && !eng0.emptyCacheOk) = false)
    ∧ ((get_model_info initState).record = (mock_get_model_info mockInit).record
        ∧ (synthesize_speech eng0 initState "t" none "bn").record
            = (mock_synthesize_speech env0 mockInit "t" none "bn").record)
    ∧ (recKeys (unload_model eng0 st1).record = ["success", "message"])
    ∧ (recSuccess (unload_model
          { eng0 with cudaAvailable := true, emptyCacheOk := false } st1).record
        = false)
    ∧ (recSuccess (mock_unload_model mst1).record = true
        ∧ recKeys (mock_unload_model mst1).record = ["success", "message"])
    ∧ (recSuccess (load_model eng0 initState "tts_models/a" none true).record = true)
    ∧ (recKeys (load_model eng0 initState "tts_models/a" none true).record
        = ["success", "message", "model_info"])
    ∧ (recKeys (synthesize_speech eng0 st1 "t" none "bn").record
        = ["success", "audio_data", "audio_length", "text_length",
           "language", "speaker_wav"])
    ∧ (recKeys (mock_synthesize_speech env0 mst1 "t" none "bn").record
        = ["success", "audio_data", "audio_length", "text_length",
           "language", "speaker_wav", "processing_time"]) :=
  ⟨rfl, rfl, rfl, rfl, rfl,
   C8_amended_substitutable.2.1 eng0 initState env0 mockInit "t" none "bn" rfl rfl,
   C8_amended_substitutable.2.2.1 eng0 st1 rfl rfl,
   C8_amended_substitutable.2.2.2.1
     { eng0 with cudaAvailable := true, emptyCacheOk := false } st1 rfl rfl rfl,
   C8_amended_substitutable.2.2.2.2.1 mst1,
   rfl,
   C8_amended_substitutable.2.2.2.2.2.2.2.1 eng0 initState "tts_models/a"
     none true rfl,
   C8_amended_substitutable.2.2.2.2.2.2.2.2.2.1 eng0 st1 "t" none "bn" rfl
     (fun m t => ⟨[1, 2, 3], rfl⟩),
   C8_amended_substitutable.2.2.2.2.2.2.2.2.2.2.1 env0 mst1 "t" none "bn" rfl⟩

/-- C10: when the mock's truthiness guard passes (a model with a non-empty
identifier is loaded), `synthesize_speech` succeeds and its `audio_length`
equals the byte count of the base64-decoded `audio_data`; that count is
exactly 1000 for every text of length at least 1 (the `min(samples, 1000)`
cap, since one character already yields 2205 samples) and 0 for empty
text. -/
theorem C10_mock_audio_cap :
    ∀ (env : MockEnv) (mst : MockState) (text : String) (sw : Option String)
      (lang : String),
      truthy mst.current_model_path = true →
      recSuccess (mock_synthesize_speech env mst text sw lang).record = true
      ∧ (mock_synthesize_speech env mst text sw lang).record.lookup "audio_data"
          = some (.str (base64Encode (mock_audio_bytes text (env.hashText text))))
      ∧ (mock_synthesize_speech env mst text sw lang).record.lookup "audio_length"
          = some (.nat (mock_audio_bytes text (env.hashText text)).length)
      ∧ (base64Decode (base64Encode (mock_audio_bytes text (env.hashText text)))).length
          = (mock_audio_bytes text (env.hashText text)).length
      ∧ (1 ≤ text.length → (mock_audio_bytes text (env.hashText text)).length = 1000)
      ∧ (text.length = 0 → (mock_audio_bytes text (env.hashText text)).length = 0) := by
  intro env mst text sw lang h1
  have heq := mock_synthesize_speech_truthy env mst text sw lang h1
  have hlt : ∀ b ∈ mock_audio_bytes text (env.hashText text), b < 256 := by
    intro b hb
    simp only [mock_audio_bytes, List.mem_map, List.mem_range] at hb
    obtain ⟨i, hi, hbv⟩ := hb
    have h0 : (0 : Int) ≤ (Int.ofNat i + env.hashText text) % 256 :=
      Int.emod_nonneg _ (by norm_num)
    have h256 : (Int.ofNat i + env.hashText text) % 256 < 256 :=
      Int.emod_lt_of_pos _ (by norm_num)
    omega
  refine ⟨?_, ?_, ?_, ?_, ?_, ?_⟩
  · rw [heq]
    exact recSuccess_true_cons _
  · rw [heq]
    simp [List.lookup]
  · rw [heq]
    simp [List.lookup]
  · rw [base64_roundtrip _ hlt]
  · intro hlen
    unfold mock_audio_bytes
    rw [List.length_map, List.length_range]
    omega
  · intro hlen
    unfold mock_audio_bytes
    rw [List.length_map, List.length_range, hlen]
    omega

/-- Witness for C10 at concrete inputs. -/
theorem C10_mock_audio_cap_witness :
    (truthy mst1.current_model_path = true)
    ∧ (recSuccess (mock_synthesize_speech env0 mst1 "ab" none "bn").record = true
      ∧ (mock_synthesize_speech env0 mst1 "ab" none "bn").record.lookup "audio_data"
          = some (.str (base64Encode (mock_audio_bytes "ab" (env0.hashText "ab"))))
      ∧ (mock_synthesize_speech env0 mst1 "ab" none "bn").record.lookup "audio_length"
          = some (.nat (mock_audio_bytes "ab" (env0.hashText "ab")).length)
      ∧ (base64Decode (base64Encode (mock_audio_bytes "ab" (env0.hashText "ab")))).length
          = (mock_audio_bytes "ab" (env0.hashText "ab")).length
      ∧ (1 ≤ "ab".length → (mock_audio_bytes "ab" (env0.hashText "ab")).length = 1000)
      ∧ ("ab".length = 0 → (mock_audio_bytes "ab" (env0.hashText "ab")).length = 0)) :=
  ⟨rfl, C10_mock_audio_cap env0 mst1 "ab" none "bn" rfl⟩

/-- C2 counterexample: when the first `load_model(X)` of a back-to-back
sequence fails (the engine's acquisition raises), the state stays unloaded
and the second call performs acquisition again — so in the literal "any
back-to-back sequence", acquisition is not confined to the first call. -/
theorem C2_counterexample :
    ((iterLoad { eng0 with acquire := fun _ _ _ => Except.error "boom" }
        "tts_models/a" none true 2 initState).2
      = [[Event.acquire "tts_models/a"], [Event.acquire "tts_models/a"]])
    ∧ recSuccess (load_model { eng0 with acquire := fun _ _ _ => Except.error "boom" }
        initState "tts_models/a" none true).record = false :=
  ⟨rfl, rfl⟩
